import Mathlib

/-!
Shallow embedding of the aptipro teacher backend (src/app.py, src/db.py):
a Flask CRUD service with six handlers (signup, verify, login, create_test,
get_results, create_question), a per-request database connection, and
Fernet encryption of stored passwords.

Request payloads are JSON dictionaries; rows are duck-typed records.  The
database is an explicit record of row lists; each handler is a pure function
from the application state, connection status, database and payload to a
result that is either a structured response together with the new database,
or an unhandled exception escaping the handler (which happens in the source
exactly when the `except` block calls `self.connection.rollback()` while the
connection is `None`).
-/

/-- A JSON value as found in a request payload (the fragment the handlers
use: strings, integers, booleans and null). -/
inductive JValue where
  | str (s : String)
  | int (n : Int)
  | bool (b : Bool)
  | null
  deriving DecidableEq, Repr

/-- Python truthiness of a JSON value: `not data[field]` in
`validate_required_fields` is true for `""`, `0`, `False` and `None`. -/
def JValue.truthy : JValue → Bool
  | .str s => !s.isEmpty
  | .int n => decide (n ≠ 0)
  | .bool b => b
  | .null => false

/-- A request payload: the JSON dictionary `request.get_json()` returns,
as an association list of keys and values. -/
def Payload : Type := List (String × JValue)

/-- `data[k]` on a payload whose key `k` is known to be present (every use
in the handlers is guarded by the required-field validation, so the `.null`
default is never reached on the guarded paths). -/
def getJ (data : Payload) (k : String) : JValue :=
  (List.lookup k data).getD .null

/-- A Fernet ciphertext, modelled from the spec contract of the external
`cryptography.fernet` collaborator: a token records the key and a per-call
nonce (Fernet tokens embed a random IV, so two encryptions of one plaintext
differ), and a malformed byte string is also a possible stored value. -/
inductive Ciphertext where
  | token (key : Nat) (nonce : Nat) (plain : String)
  | malformed (junk : String)
  deriving DecidableEq, Repr

/-- Modelled from the spec: Fernet encryption under `key` with the fresh
per-call IV abstracted as `nonce`. -/
def fernetEncrypt (key : Nat) (nonce : Nat) (p : String) : Ciphertext :=
  .token key nonce p

/-- Modelled from the spec: Fernet decryption; `none` models the
`InvalidToken` (`CryptoError`) exception raised when the ciphertext is
malformed or was produced under a different key. -/
def fernetDecrypt (key : Nat) : Ciphertext → Option String
  | .token k _ p => if k = key then some p else none
  | .malformed _ => none

/-- Process-wide cipher state: the static key loaded at startup, and the
nonce counter abstracting the source of per-call randomness. -/
structure AppState where
  key : Nat
  nonce : Nat
  deriving DecidableEq, Repr

/-- `FlaskApp.encrypt_data`: encrypt a string under the static key; each
call consumes a fresh nonce. -/
def encrypt_data (st : AppState) (data : String) : Ciphertext × AppState :=
  (fernetEncrypt st.key st.nonce data, { st with nonce := st.nonce + 1 })

/-- `FlaskApp.decrypt_data`: decrypt under the static key; `none` is the
`InvalidToken` exception. -/
def decrypt_data (st : AppState) (c : Ciphertext) : Option String :=
  fernetDecrypt st.key c

/-- Value of a non-empty ASCII digit string, accumulator form. -/
def digitsValAux : List Char → Nat → Option Nat
  | [], acc => some acc
  | c :: cs, acc =>
    if 48 ≤ c.toNat ∧ c.toNat ≤ 57 then
      digitsValAux cs (acc * 10 + (c.toNat - 48))
    else none

/-- Value of a non-empty ASCII digit string. -/
def digitsVal : List Char → Option Nat
  | [] => none
  | cs => digitsValAux cs 0

/-- Python `int(..)` on a string: an optional sign followed by decimal
digits; anything else raises `ValueError` (`none`). -/
def pyInt (s : String) : Option Int :=
  match s.data with
  | '-' :: cs => (digitsVal cs).map (fun n => -(n : Int))
  | cs => (digitsVal cs).map (fun n => (n : Int))

/-- ASCII lower-casing of one character (`str.lower`). -/
def lowerChar (c : Char) : Char :=
  if 65 ≤ c.toNat ∧ c.toNat ≤ 90 then Char.ofNat (c.toNat + 32) else c

/-- ASCII lower-casing of a string (`str.lower`). -/
def lowerStr (s : String) : String := String.mk (s.data.map lowerChar)

/-- Integer coercion of a JSON value: Python `int(..)` on the `id` fields,
and (modelled from the spec, the column types of the repository's schema
are not under src/) the store's coercion of a value bound to an integer
column.  `none` is a raised coercion error. -/
def coerceInt : JValue → Option Int
  | .int n => some n
  | .str s => pyInt s
  | .bool b => some (if b then 1 else 0)
  | .null => none

/-- Extraction of a Python `str`: `none` models the `AttributeError` raised
when a string method (`.encode()`, `.lower()`) is called on a non-string. -/
def pyStr : JValue → Option String
  | .str s => some s
  | _ => none

/-- A `teachers` row.  Columns hold whatever JSON value the insert supplied
(the rows are duck-typed in the source); the password column holds the
Fernet token and `verified` the flag defaulting to false on insert. -/
structure Teacher where
  id : JValue
  email : JValue
  name : JValue
  dept_name : JValue
  password : Ciphertext
  verified : Bool
  deriving DecidableEq, Repr

/-- A `subjects` row. -/
structure SubjectRow where
  subject_name : JValue
  dept_name : JValue
  deriving DecidableEq, Repr

/-- A `tests` row, as inserted by `create_test`: `id` passes through Python
`int(..)`; `marks`, `questions_count` and `duration` land in integer
columns. -/
structure Test where
  id : Int
  name : JValue
  marks : Int
  questions_count : Int
  duration : Int
  difficulty : JValue
  subject : JValue
  teacher : JValue
  scheduled_at : Option JValue
  dept_name : JValue
  deriving DecidableEq, Repr

/-- An `mcq` row, as inserted by `create_question`. -/
structure Mcq where
  id : Int
  question : JValue
  optionA : JValue
  optionB : JValue
  optionC : JValue
  optionD : JValue
  correctOption : JValue
  difficulty : JValue
  subject : JValue
  deriving DecidableEq, Repr

/-- A `results` row (the columns the handlers touch). -/
structure ResultRow where
  teacher_email : JValue
  student_email : JValue
  score : JValue
  deriving DecidableEq, Repr

/-- A `students` row (the columns the handlers touch). -/
structure Student where
  email : JValue
  name : JValue
  deriving DecidableEq, Repr

/-- The relational store. -/
structure DB where
  teachers : List Teacher
  departments : List JValue
  subjects : List SubjectRow
  tests : List Test
  mcq : List Mcq
  results : List ResultRow
  students : List Student
  deriving DecidableEq, Repr

/-- The profile dictionary built by a successful login. -/
structure UserData where
  id : JValue
  email : JValue
  name : JValue
  department : JValue
  verified : Bool
  subjects : List JValue
  tests_created : Nat
  results_analyzed : Nat
  deriving DecidableEq, Repr

/-- A structured response: HTTP status plus the JSON body.  `message` is
optional because the `get_results` success body carries none; `error` is
the exception detail string some bodies include; `user` and `results` are
the operation-specific payloads. -/
structure Response where
  status : Nat
  success : Bool
  message : Option String := none
  error : Option String := none
  user : Option UserData := none
  results : Option (List (ResultRow × Student)) := none
  deriving DecidableEq, Repr

/-- Outcome of one handler call: a response together with the database and
cipher state after the call, or an exception that escaped the handler
(in the source: `rollback()` on a `None` connection inside `except`). -/
inductive HResult where
  | ok (r : Response) (db : DB) (st : AppState)
  | unhandled (e : String) (db : DB) (st : AppState)
  deriving DecidableEq, Repr

/-- The HTTP status of the outcome, when a response was produced. -/
def HResult.status? : HResult → Option Nat
  | .ok r _ _ => some r.status
  | .unhandled _ _ _ => none

/-- The body's `message` field, when a response was produced and carries
one. -/
def HResult.message? : HResult → Option String
  | .ok r _ _ => r.message
  | .unhandled _ _ _ => none

/-- The body's `error` detail field, when present. -/
def HResult.error? : HResult → Option String
  | .ok r _ _ => r.error
  | .unhandled _ _ _ => none

/-- The produced response, if any. -/
def HResult.resp? : HResult → Option Response
  | .ok r _ _ => some r
  | .unhandled _ _ _ => none

/-- The database after the call. -/
def HResult.dbOut : HResult → DB
  | .ok _ db _ => db
  | .unhandled _ db _ => db

/-- `db.get_db_connection`: connect to the store; on `pymysql.MySQLError`
the function prints and returns `None`.  `reachable` abstracts whether the
store accepts the connection. -/
def get_db_connection (reachable : Bool) : Option Unit :=
  if reachable then some () else none

/-- The fields of the payload that are absent or Python-falsy, in required
order (the list comprehension in `validate_required_fields`). -/
def missing_fields (data : Payload) (required : List String) : List String :=
  required.filter fun f =>
    match List.lookup f data with
    | none => true
    | some v => !v.truthy

/-- `FlaskApp.validate_required_fields`: `some` of the 400 body naming
every missing or falsy field, or `none` when all are present and truthy. -/
def validate_required_fields (data : Payload) (required : List String) :
    Option Response :=
  if (missing_fields data required).isEmpty then none
  else some { status := 400, success := false,
              message := some ("Missing required fields: " ++
                String.intercalate ", " (missing_fields data required)) }

/-- The single signup duplicate query:
`SELECT id FROM teachers WHERE email = %s OR id = %s` has a row. -/
def emailOrIdExists (db : DB) (email id : JValue) : Bool :=
  db.teachers.any fun t => decide (t.email = email) || decide (t.id = id)

/-- `SELECT department_name FROM department WHERE department_name = %s`
has a row. -/
def departmentExists (db : DB) (d : JValue) : Bool :=
  db.departments.any fun x => decide (x = d)

/-- `SELECT id FROM teachers WHERE email = %s` has a row. -/
def teacherExists (db : DB) (email : JValue) : Bool :=
  db.teachers.any fun t => decide (t.email = email)

/-- The first `teachers` row with the given email (`fetchone`). -/
def findTeacher (db : DB) (email : JValue) : Option Teacher :=
  db.teachers.find? fun t => decide (t.email = email)

/-- The difficulty whitelist `VALID_DIFFICULTIES`. -/
def VALID_DIFFICULTIES : List String := ["easy", "medium", "hard"]

/-- The case-insensitive difficulty membership test
`data['difficulty'].lower() in VALID_DIFFICULTIES`. -/
def difficultyValid (s : String) : Bool :=
  decide (lowerStr s ∈ VALID_DIFFICULTIES)

/-- Required fields of `/signup`. -/
def signupRequired : List String :=
  ["id", "name", "email", "password", "department"]

/-- `FlaskApp.signup`.  Control flow of the source: field validation, then
the single email-OR-id duplicate query, the department query, encryption of
the password, the insert and commit; any exception rolls back (which itself
raises when the connection is `None`) and yields the 500 body with the
exception detail. -/
def signup (st : AppState) (connOk : Bool) (db : DB) (data : Payload) :
    HResult :=
  match validate_required_fields data signupRequired with
  | some err => .ok err db st
  | none =>
    if connOk = false then
      .unhandled "AttributeError: NoneType has no attribute rollback" db st
    else if emailOrIdExists db (getJ data "email") (getJ data "id") then
      .ok { status := 400, success := false,
            message := some "Email or ID already exists" } db st
    else if departmentExists db (getJ data "department") = false then
      .ok { status := 400, success := false,
            message := some "Invalid department" } db st
    else
      match pyStr (getJ data "password") with
      | none =>
        .ok { status := 500, success := false,
              message := some "An error occurred during signup",
              error := some "AttributeError: object has no attribute encode" }
          db st
      | some pw =>
        let ec := encrypt_data st pw
        .ok { status := 201, success := true,
              message := some "Teacher account created successfully" }
          { db with teachers := db.teachers ++
              [{ id := getJ data "id", email := getJ data "email",
                 name := getJ data "name", dept_name := getJ data "department",
                 password := ec.1, verified := false }] } ec.2

/-- `FlaskApp.verify`: presence check on `email` (presence only, not
truthiness), existence query, then `UPDATE teachers SET verified = 1`. -/
def verify (st : AppState) (connOk : Bool) (db : DB) (data : Payload) :
    HResult :=
  if data.isEmpty || (List.lookup "email" data).isNone then
    .ok { status := 400, success := false,
          message := some "Email is required" } db st
  else if connOk = false then
    .unhandled "AttributeError: NoneType has no attribute rollback" db st
  else if teacherExists db (getJ data "email") = false then
    .ok { status := 404, success := false,
          message := some "Email not found" } db st
  else
    .ok { status := 200, success := true,
          message := some "Account verified successfully" }
      { db with teachers := db.teachers.map fun t =>
          if t.email = getJ data "email" then { t with verified := true }
          else t } st

/-- `FlaskApp.login`.  Validation, teacher lookup, decryption of the stored
password (a raised `InvalidToken` falls to the generic `except`, which does
not roll back and returns the 500 body with the detail), plaintext
comparison, verified check, then the profile build. -/
def login (st : AppState) (connOk : Bool) (db : DB) (data : Payload) :
    HResult :=
  match validate_required_fields data ["email", "password"] with
  | some err => .ok err db st
  | none =>
    if connOk = false then
      .ok { status := 500, success := false,
            message := some "An error occurred during login",
            error := some "AttributeError: NoneType has no attribute cursor" }
        db st
    else
      match findTeacher db (getJ data "email") with
      | none =>
        .ok { status := 401, success := false,
              message := some "Invalid email or password" } db st
      | some teacher =>
        match decrypt_data st teacher.password with
        | none =>
          .ok { status := 500, success := false,
                message := some "An error occurred during login",
                error := some "InvalidToken" } db st
        | some dp =>
          if decide (getJ data "password" = JValue.str dp) = false then
            .ok { status := 401, success := false,
                  message := some "Invalid email or password" } db st
          else if teacher.verified = false then
            .ok { status := 403, success := false,
                  message := some "Account not verified. Please check your email." }
              db st
          else
            .ok { status := 200, success := true,
                  message := some "Login successful",
                  user := some
                    { id := teacher.id, email := teacher.email,
                      name := teacher.name, department := teacher.dept_name,
                      verified := teacher.verified,
                      subjects := (db.subjects.filter fun s =>
                          decide (s.dept_name = teacher.dept_name)).map
                        (fun s => s.subject_name),
                      tests_created := (db.tests.filter fun t =>
                          decide (t.teacher = getJ data "email")).length,
                      results_analyzed := (db.results.filter fun r =>
                          decide (r.teacher_email = getJ data "email")).length } }
              db st

/-- Required fields of `/create_test`. -/
def testRequired : List String :=
  ["id", "name", "marks", "totalQuestions", "duration",
   "difficulty", "subject", "createdBy", "scheduleDate", "dept_name"]

/-- `FlaskApp.create_test`.  Validation, the difficulty check (before any
cursor use; `.lower()` on a non-string raises), creator existence, then the
insert whose `id` passes through Python `int(..)` and whose count fields
land in integer columns; a raised coercion error rolls back and yields the
500 body. -/
def create_test (st : AppState) (connOk : Bool) (db : DB) (data : Payload) :
    HResult :=
  match validate_required_fields data testRequired with
  | some err => .ok err db st
  | none =>
    match pyStr (getJ data "difficulty") with
    | none =>
      if connOk = false then
        .unhandled "AttributeError: NoneType has no attribute rollback" db st
      else
        .ok { status := 500, success := false,
              message := some "An error occurred while creating the test",
              error := some "AttributeError: object has no attribute lower" }
          db st
    | some s =>
      if difficultyValid s = false then
        .ok { status := 400, success := false,
              message := some ("Difficulty must be one of: " ++
                String.intercalate ", " VALID_DIFFICULTIES) } db st
      else if connOk = false then
        .unhandled "AttributeError: NoneType has no attribute rollback" db st
      else if teacherExists db (getJ data "createdBy") = false then
        .ok { status := 404, success := false,
              message := some "Teacher not found" } db st
      else
        match coerceInt (getJ data "id"), coerceInt (getJ data "marks"),
            coerceInt (getJ data "totalQuestions"),
            coerceInt (getJ data "duration") with
        | some i, some m, some q, some du =>
          .ok { status := 201, success := true,
                message := some "Test created successfully" }
            { db with tests := db.tests ++
                [{ id := i, name := getJ data "name", marks := m,
                   questions_count := q, duration := du,
                   difficulty := getJ data "difficulty",
                   subject := getJ data "subject",
                   teacher := getJ data "createdBy",
                   scheduled_at := List.lookup "scheduleDate" data,
                   dept_name := getJ data "dept_name" }] } st
        | _, _, _, _ =>
          .ok { status := 500, success := false,
                message := some "An error occurred while creating the test",
                error := some "invalid literal for int" } db st

/-- `FlaskApp.get_results`: the `email` query parameter must be present and
non-empty (`if not teacher_email`); then the inner join of `results` and
`students` filtered by teacher email.  The success body carries `success`
and `results` but no `message`; the `except` block does not roll back. -/
def get_results (st : AppState) (connOk : Bool) (db : DB)
    (email : Option String) : HResult :=
  match email with
  | none =>
    .ok { status := 400, success := false,
          message := some "Teacher email is required" } db st
  | some e =>
    if e.isEmpty then
      .ok { status := 400, success := false,
            message := some "Teacher email is required" } db st
    else if connOk = false then
      .ok { status := 500, success := false,
            message := some "An error occurred while fetching results",
            error := some "AttributeError: NoneType has no attribute cursor" }
        db st
    else
      .ok { status := 200, success := true,
            results := some ((db.results.filter fun r =>
                decide (r.teacher_email = JValue.str e)).flatMap fun r =>
              (db.students.filter fun s =>
                  decide (s.email = r.student_email)).map fun s => (r, s)) }
        db st

/-- Required fields of `/questions`. -/
def questionRequired : List String :=
  ["id", "question", "optionA", "optionB", "optionC", "optionD",
   "correctOption", "difficulty", "subject"]

/-- `FlaskApp.create_question`: validation, then the insert whose `id`
passes through Python `int(..)`; success is 200 (not 201). -/
def create_question (st : AppState) (connOk : Bool) (db : DB)
    (data : Payload) : HResult :=
  match validate_required_fields data questionRequired with
  | some err => .ok err db st
  | none =>
    if connOk = false then
      .unhandled "AttributeError: NoneType has no attribute rollback" db st
    else
      match coerceInt (getJ data "id") with
      | none =>
        .ok { status := 500, success := false,
              message := some "An error occurred while creating question",
              error := some "invalid literal for int" } db st
      | some i =>
        .ok { status := 200, success := true,
              message := some "Question created successfully" }
          { db with mcq := db.mcq ++
              [{ id := i, question := getJ data "question",
                 optionA := getJ data "optionA", optionB := getJ data "optionB",
                 optionC := getJ data "optionC", optionD := getJ data "optionD",
                 correctOption := getJ data "correctOption",
                 difficulty := getJ data "difficulty",
                 subject := getJ data "subject" }] } st

/-- An inbound request to one of the six registered routes. -/
inductive Request where
  | signupReq (data : Payload)
  | verifyReq (data : Payload)
  | loginReq (data : Payload)
  | createTestReq (data : Payload)
  | resultsReq (email : Option String)
  | questionsReq (data : Payload)

/-- Route dispatch: `_before_request` has set the connection (present iff
`connOk`), then the matching handler runs. -/
def dispatch (st : AppState) (connOk : Bool) (db : DB) :
    Request → HResult
  | .signupReq d => signup st connOk db d
  | .verifyReq d => verify st connOk db d
  | .loginReq d => login st connOk db d
  | .createTestReq d => create_test st connOk db d
  | .resultsReq e => get_results st connOk db e
  | .questionsReq d => create_question st connOk db d

/-! ### Concrete fixtures used by witnesses and counterexamples -/

/-- Cipher state with key 7 and nonce counter 0. -/
def stW : AppState := { key := 7, nonce := 0 }

/-- The example signup payload of the spec. -/
def dataW : Payload :=
  [("id", .int 1), ("name", .str "A"), ("email", .str "a@x.com"),
   ("password", .str "pw"), ("department", .str "CS")]

/-- A store holding only the department CS. -/
def dbW : DB :=
  { teachers := [], departments := [.str "CS"], subjects := [],
    tests := [], mcq := [], results := [], students := [] }

/-- A login payload for `a@x.com` with password `pw`. -/
def dLogin : Payload := [("email", .str "a@x.com"), ("password", .str "pw")]

/-- A teacher whose stored password token was produced under key 99, not
the process key 7: decryption raises. -/
def teacherBad : Teacher :=
  { id := .int 1, email := .str "a@x.com", name := .str "A",
    dept_name := .str "CS", password := .token 99 0 "pw", verified := true }

/-- A store holding only `teacherBad`. -/
def dbBad : DB :=
  { teachers := [teacherBad], departments := [.str "CS"], subjects := [],
    tests := [], mcq := [], results := [], students := [] }

/-- A teacher with a key-7 token whose verified flag is false. -/
def teacherUnv : Teacher :=
  { id := .int 1, email := .str "a@x.com", name := .str "A",
    dept_name := .str "CS", password := .token 7 0 "pw", verified := false }

/-- A store holding only `teacherUnv`. -/
def dbUnv : DB :=
  { teachers := [teacherUnv], departments := [.str "CS"], subjects := [],
    tests := [], mcq := [], results := [], students := [] }

/-- A verified teacher used as test creator. -/
def teacherW : Teacher :=
  { id := .int 9, email := .str "a@x.com", name := .str "A",
    dept_name := .str "CS", password := .token 7 0 "pw", verified := true }

/-- A store holding `teacherW` and the department CS. -/
def dbT : DB :=
  { teachers := [teacherW], departments := [.str "CS"], subjects := [],
    tests := [], mcq := [], results := [], students := [] }

/-- A create_test payload whose numeric fields arrive as strings and whose
difficulty is mixed case. -/
def dataT : Payload :=
  [("id", .str "5"), ("name", .str "T1"), ("marks", .str "50"),
   ("totalQuestions", .int 10), ("duration", .str "60"),
   ("difficulty", .str "MEDIUM"), ("subject", .str "Math"),
   ("createdBy", .str "a@x.com"), ("scheduleDate", .str "2025-01-01"),
   ("dept_name", .str "CS")]

/-- `dataT` with a non-numeric marks string. -/
def dataTbad : Payload :=
  [("id", .str "5"), ("name", .str "T1"), ("marks", .str "fifty"),
   ("totalQuestions", .int 10), ("duration", .str "60"),
   ("difficulty", .str "MEDIUM"), ("subject", .str "Math"),
   ("createdBy", .str "a@x.com"), ("scheduleDate", .str "2025-01-01"),
   ("dept_name", .str "CS")]

/-- `dataT` with difficulty "impossible". -/
def dataImp : Payload :=
  [("id", .str "5"), ("name", .str "T1"), ("marks", .str "50"),
   ("totalQuestions", .int 10), ("duration", .str "60"),
   ("difficulty", .str "impossible"), ("subject", .str "Math"),
   ("createdBy", .str "a@x.com"), ("scheduleDate", .str "2025-01-01"),
   ("dept_name", .str "CS")]

/-- The 500 body login returns when the request-scoped connection is
`None`. -/
def r500login : Response :=
  { status := 500, success := false,
    message := some "An error occurred during login",
    error := some "AttributeError: NoneType has no attribute cursor" }

/-! ### Theorems -/

/-- Claim C4: for every string `p`, `decrypt_data` inverts `encrypt_data`,
and two successive encryptions of the same `p` (the second starting from
the state the first left) return different ciphertexts. -/
theorem C4_encrypt_roundtrip_and_fresh (st : AppState) (p : String) :
    decrypt_data st (encrypt_data st p).1 = some p ∧
    (encrypt_data st p).1 ≠ (encrypt_data (encrypt_data st p).2 p).1 := by
  constructor
  · simp [decrypt_data, encrypt_data, fernetEncrypt, fernetDecrypt]
  · simp [encrypt_data, fernetEncrypt]

/-- Claim C1: a valid signup payload (all required fields truthy, the
password a string, the department known) whose email and id are both fresh
succeeds with 201 and appends exactly one teacher row; any signup whose
email or id the single duplicate query matches fails 400 with the duplicate
message and leaves the store unchanged — in particular repeating the same
payload after the success fails 400. -/
theorem C1_signup_succeeds_once (st : AppState) (db : DB) (data : Payload)
    (pw : String)
    (hval : validate_required_fields data signupRequired = none)
    (hpw : getJ data "password" = JValue.str pw)
    (hdept : departmentExists db (getJ data "department") = true)
    (hfresh : emailOrIdExists db (getJ data "email") (getJ data "id") = false) :
    signup st true db data = .ok
      { status := 201, success := true,
        message := some "Teacher account created successfully" }
      { db with teachers := db.teachers ++
          [{ id := getJ data "id", email := getJ data "email",
             name := getJ data "name", dept_name := getJ data "department",
             password := .token st.key st.nonce pw, verified := false }] }
      { st with nonce := st.nonce + 1 } ∧
    (∀ (st2 : AppState) (db2 : DB) (data2 : Payload),
      validate_required_fields data2 signupRequired = none →
      emailOrIdExists db2 (getJ data2 "email") (getJ data2 "id") = true →
      signup st2 true db2 data2 = .ok
        { status := 400, success := false,
          message := some "Email or ID already exists" } db2 st2) ∧
    emailOrIdExists
      { db with teachers := db.teachers ++
          [{ id := getJ data "id", email := getJ data "email",
             name := getJ data "name", dept_name := getJ data "department",
             password := .token st.key st.nonce pw, verified := false }] }
      (getJ data "email") (getJ data "id") = true := by
  refine ⟨?_, ?_, ?_⟩
  · simp [signup, hval, hfresh, hdept, hpw, pyStr, encrypt_data, fernetEncrypt]
  · intro st2 db2 data2 hval2 hdup2
    simp [signup, hval2, hdup2]
  · simp [emailOrIdExists, List.any_append]

/-- Claim C1 witness: the spec's example payload on the CS-only store. -/
theorem C1_witness :
    signup stW true dbW dataW = .ok
      { status := 201, success := true,
        message := some "Teacher account created successfully" }
      { dbW with teachers :=
          [{ id := .int 1, email := .str "a@x.com", name := .str "A",
             dept_name := .str "CS", password := .token 7 0 "pw",
             verified := false }] }
      { key := 7, nonce := 1 } := by
  have h := C1_signup_succeeds_once stW dbW dataW "pw"
    (by decide) (by decide) (by decide) (by decide)
  exact h.1

/-- Claim C2: the login response for an email no teacher has and the login
response for an existing teacher's email with a non-matching password are
the identical 401 invalid-credentials body, so the response does not reveal
whether the email exists. -/
theorem C2_login_no_enumeration (st1 st2 : AppState) (db1 db2 : DB)
    (d1 d2 : Payload) (t : Teacher) (p : String)
    (hv1 : validate_required_fields d1 ["email", "password"] = none)
    (hv2 : validate_required_fields d2 ["email", "password"] = none)
    (hunknown : findTeacher db1 (getJ d1 "email") = none)
    (hfound : findTeacher db2 (getJ d2 "email") = some t)
    (hdec : decrypt_data st2 t.password = some p)
    (hwrong : getJ d2 "password" ≠ JValue.str p) :
    (login st1 true db1 d1).resp? =
      some { status := 401, success := false,
             message := some "Invalid email or password" } ∧
    (login st2 true db2 d2).resp? =
      some { status := 401, success := false,
             message := some "Invalid email or password" } := by
  constructor
  · simp [login, hv1, hunknown, HResult.resp?]
  · simp [login, hv2, hfound, hdec, hwrong, HResult.resp?]

/-- Claim C2 witness: `ghost@x.com` against the empty store, and `a@x.com`
with a wrong password against a store holding that teacher. -/
theorem C2_witness :
    (login stW true dbW [("email", .str "ghost@x.com"), ("password", .str "z")]).resp? =
      some { status := 401, success := false,
             message := some "Invalid email or password" } ∧
    (login stW true
        { dbW with teachers :=
            [{ id := .int 1, email := .str "a@x.com", name := .str "A",
               dept_name := .str "CS", password := .token 7 0 "pw",
               verified := true }] }
        [("email", .str "a@x.com"), ("password", .str "wrong")]).resp? =
      some { status := 401, success := false,
             message := some "Invalid email or password" } :=
  C2_login_no_enumeration stW stW dbW
    { dbW with teachers :=
        [{ id := .int 1, email := .str "a@x.com", name := .str "A",
           dept_name := .str "CS", password := .token 7 0 "pw",
           verified := true }] }
    [("email", .str "ghost@x.com"), ("password", .str "z")]
    [("email", .str "a@x.com"), ("password", .str "wrong")]
    { id := .int 1, email := .str "a@x.com", name := .str "A",
      dept_name := .str "CS", password := .token 7 0 "pw", verified := true }
    "pw" (by decide) (by decide) (by decide) (by decide) (by decide) (by decide)

/-- Claim C3 counterexample: with the stored token encrypted under key 99
while the process key is 7, login returns 500 with the exception detail in
the body — not the 401 wrong-password response, and the detail is leaked. -/
theorem C3_counterexample :
    (login stW true dbBad dLogin).status? = some 500 ∧
    (login stW true dbBad dLogin).error? = some "InvalidToken" := by decide

/-- Claim C3 as amended: a decrypt failure on the stored ciphertext falls
into login's generic exception handler and is returned as the 500 internal
error with the exception detail in the `error` field (message "An error
occurred during login"), not as the 401 wrong-password response. -/
theorem C3_decrypt_failure_is_500 (st : AppState) (db : DB) (data : Payload)
    (t : Teacher)
    (hv : validate_required_fields data ["email", "password"] = none)
    (hfound : findTeacher db (getJ data "email") = some t)
    (hdec : decrypt_data st t.password = none) :
    login st true db data = .ok
      { status := 500, success := false,
        message := some "An error occurred during login",
        error := some "InvalidToken" } db st := by
  simp [login, hv, hfound, hdec]

/-- Claim C3 witness: the wrong-key fixture. -/
theorem C3_witness :
    login stW true dbBad dLogin = .ok
      { status := 500, success := false,
        message := some "An error occurred during login",
        error := some "InvalidToken" } dbBad stW :=
  C3_decrypt_failure_is_500 stW dbBad dLogin teacherBad
    (by decide) (by decide) (by decide)


/-- Claim C9: with an existing email and the matching password on an
unverified account, login returns the 403 unverified body, not 401; and on
the same account a non-matching password still returns 401 — the verified
flag is only consulted after the password has matched. -/
theorem C9_unverified_after_password (st : AppState) (db : DB)
    (data : Payload) (t : Teacher) (p : String)
    (hv : validate_required_fields data ["email", "password"] = none)
    (hfound : findTeacher db (getJ data "email") = some t)
    (hdec : decrypt_data st t.password = some p)
    (hmatch : getJ data "password" = JValue.str p)
    (hunv : t.verified = false) :
    login st true db data = .ok
      { status := 403, success := false,
        message := some "Account not verified. Please check your email." }
      db st ∧
    (∀ data2 : Payload,
      validate_required_fields data2 ["email", "password"] = none →
      getJ data2 "email" = getJ data "email" →
      getJ data2 "password" ≠ JValue.str p →
      login st true db data2 = .ok
        { status := 401, success := false,
          message := some "Invalid email or password" } db st) := by
  constructor
  · simp [login, hv, hfound, hdec, hmatch, hunv]
  · intro data2 hv2 hsame hwrong
    simp [login, hv2, hsame, hfound, hdec, hwrong]

/-- Claim C9 witness: the unverified fixture with the right and with a
wrong password. -/
theorem C9_witness :
    login stW true dbUnv dLogin = .ok
      { status := 403, success := false,
        message := some "Account not verified. Please check your email." }
      dbUnv stW ∧
    login stW true dbUnv [("email", .str "a@x.com"), ("password", .str "no")] =
      .ok { status := 401, success := false,
            message := some "Invalid email or password" } dbUnv stW := by
  have h := C9_unverified_after_password stW dbUnv dLogin teacherUnv "pw"
    (by decide) (by decide) (by decide) (by decide) (by decide)
  exact ⟨h.1, h.2 [("email", .str "a@x.com"), ("password", .str "no")]
    (by decide) (by decide) (by decide)⟩

/-- Claim C10: a required field that is present with a Python-falsy value
(empty string, 0, false, null) lands in the missing list exactly like an
absent field, and the operation returns the 400 field-missing body naming
it; in particular a signup whose id is 0 returns the field-missing error
with the store untouched, never reaching the duplicate query or the
insert. -/
theorem C10_falsy_counts_as_missing :
    (∀ (data : Payload) (fields : List String) (f : String) (v : JValue),
      f ∈ fields → List.lookup f data = some v → v.truthy = false →
      f ∈ missing_fields data fields ∧
      validate_required_fields data fields = some
        { status := 400, success := false,
          message := some ("Missing required fields: " ++
            String.intercalate ", " (missing_fields data fields)) }) ∧
    (∀ (st : AppState) (connOk : Bool) (db : DB) (data : Payload),
      List.lookup "id" data = some (JValue.int 0) →
      "id" ∈ missing_fields data signupRequired ∧
      signup st connOk db data = .ok
        { status := 400, success := false,
          message := some ("Missing required fields: " ++
            String.intercalate ", " (missing_fields data signupRequired)) }
        db st) := by
  have key : ∀ (data : Payload) (fields : List String) (f : String)
      (v : JValue), f ∈ fields → List.lookup f data = some v →
      v.truthy = false →
      f ∈ missing_fields data fields ∧
      validate_required_fields data fields = some
        { status := 400, success := false,
          message := some ("Missing required fields: " ++
            String.intercalate ", " (missing_fields data fields)) } := by
    intro data fields f v hf hlook htruthy
    have hmem : f ∈ missing_fields data fields := by
      unfold missing_fields
      refine List.mem_filter.mpr ⟨hf, ?_⟩
      rw [hlook]
      simp [htruthy]
    refine ⟨hmem, ?_⟩
    unfold validate_required_fields
    have hne : (missing_fields data fields).isEmpty = false := by
      cases hmf : missing_fields data fields with
      | nil => rw [hmf] at hmem; cases hmem
      | cons a l => simp [List.isEmpty]
    rw [hne]
    simp
  refine ⟨key, ?_⟩
  intro st connOk db data hid
  have h := key data signupRequired "id" (JValue.int 0)
    (by simp [signupRequired]) hid (by simp [JValue.truthy])
  refine ⟨h.1, ?_⟩
  simp [signup, h.2]

/-- Claim C10 witness: the example payload with id 0. -/
theorem C10_witness :
    "id" ∈ missing_fields
      [("id", .int 0), ("name", .str "A"), ("email", .str "a@x.com"),
       ("password", .str "pw"), ("department", .str "CS")] signupRequired ∧
    signup stW true dbW
      [("id", .int 0), ("name", .str "A"), ("email", .str "a@x.com"),
       ("password", .str "pw"), ("department", .str "CS")] = .ok
      { status := 400, success := false,
        message := some "Missing required fields: id" } dbW stW := by
  have h := C10_falsy_counts_as_missing.2 stW true dbW
    [("id", .int 0), ("name", .str "A"), ("email", .str "a@x.com"),
     ("password", .str "pw"), ("department", .str "CS")] (by decide)
  exact ⟨h.1, by rw [h.2]; rfl⟩


/-- Claim C7: in create_test and create_question the numeric fields are
coerced to integers on the way into the store (`id` by Python `int(..)`,
the count columns by the store's integer columns): when every coercion
succeeds the insert stores the integers, and when any of them fails the
operation returns the 500 internal error with the exception detail, not a
400 validation error, leaving the store unchanged. -/
theorem C7_numeric_coercion :
    (∀ (st : AppState) (db : DB) (data : Payload) (s : String) (i m q du : Int),
      validate_required_fields data testRequired = none →
      getJ data "difficulty" = JValue.str s →
      difficultyValid s = true →
      teacherExists db (getJ data "createdBy") = true →
      coerceInt (getJ data "id") = some i →
      coerceInt (getJ data "marks") = some m →
      coerceInt (getJ data "totalQuestions") = some q →
      coerceInt (getJ data "duration") = some du →
      create_test st true db data = .ok
        { status := 201, success := true,
          message := some "Test created successfully" }
        { db with tests := db.tests ++
            [{ id := i, name := getJ data "name", marks := m,
               questions_count := q, duration := du,
               difficulty := getJ data "difficulty",
               subject := getJ data "subject",
               teacher := getJ data "createdBy",
               scheduled_at := List.lookup "scheduleDate" data,
               dept_name := getJ data "dept_name" }] } st) ∧
    (∀ (st : AppState) (db : DB) (data : Payload) (s : String),
      validate_required_fields data testRequired = none →
      getJ data "difficulty" = JValue.str s →
      difficultyValid s = true →
      teacherExists db (getJ data "createdBy") = true →
      (coerceInt (getJ data "id") = none ∨
       coerceInt (getJ data "marks") = none ∨
       coerceInt (getJ data "totalQuestions") = none ∨
       coerceInt (getJ data "duration") = none) →
      create_test st true db data = .ok
        { status := 500, success := false,
          message := some "An error occurred while creating the test",
          error := some "invalid literal for int" } db st) ∧
    (∀ (st : AppState) (db : DB) (data : Payload) (i : Int),
      validate_required_fields data questionRequired = none →
      coerceInt (getJ data "id") = some i →
      create_question st true db data = .ok
        { status := 200, success := true,
          message := some "Question created successfully" }
        { db with mcq := db.mcq ++
            [{ id := i, question := getJ data "question",
               optionA := getJ data "optionA", optionB := getJ data "optionB",
               optionC := getJ data "optionC", optionD := getJ data "optionD",
               correctOption := getJ data "correctOption",
               difficulty := getJ data "difficulty",
               subject := getJ data "subject" }] } st) ∧
    (∀ (st : AppState) (db : DB) (data : Payload),
      validate_required_fields data questionRequired = none →
      coerceInt (getJ data "id") = none →
      create_question st true db data = .ok
        { status := 500, success := false,
          message := some "An error occurred while creating question",
          error := some "invalid literal for int" } db st) := by
  refine ⟨?_, ?_, ?_, ?_⟩
  · intro st db data s i m q du hval hdiff hd ht h1 h2 h3 h4
    simp [create_test, hval, hdiff, pyStr, hd, ht, h1, h2, h3, h4]
  · intro st db data s hval hdiff hd ht hbad
    rcases hbad with h | h | h | h
    · simp [create_test, hval, hdiff, pyStr, hd, ht, h]
    · cases hid : coerceInt (getJ data "id") <;>
        simp [create_test, hval, hdiff, pyStr, hd, ht, hid, h]
    · cases hid : coerceInt (getJ data "id") <;>
        cases hm : coerceInt (getJ data "marks") <;>
        simp [create_test, hval, hdiff, pyStr, hd, ht, hid, hm, h]
    · cases hid : coerceInt (getJ data "id") <;>
        cases hm : coerceInt (getJ data "marks") <;>
        cases hq : coerceInt (getJ data "totalQuestions") <;>
        simp [create_test, hval, hdiff, pyStr, hd, ht, hid, hm, hq, h]
  · intro st db data i hval h1
    simp [create_question, hval, h1]
  · intro st db data hval h1
    simp [create_question, hval, h1]

/-- Claim C7 witness: string-valued numeric fields on `dataT` store the
integers 5, 50, 10, 60; the non-numeric marks of `dataTbad` yield 500. -/
theorem C7_witness :
    create_test stW true dbT dataT = .ok
      { status := 201, success := true,
        message := some "Test created successfully" }
      { dbT with tests :=
          [{ id := 5, name := .str "T1", marks := 50, questions_count := 10,
             duration := 60, difficulty := .str "MEDIUM",
             subject := .str "Math", teacher := .str "a@x.com",
             scheduled_at := some (.str "2025-01-01"),
             dept_name := .str "CS" }] } stW ∧
    create_test stW true dbT dataTbad = .ok
      { status := 500, success := false,
        message := some "An error occurred while creating the test",
        error := some "invalid literal for int" } dbT stW :=
  ⟨C7_numeric_coercion.1 stW dbT dataT "MEDIUM" 5 50 10 60 (by decide)
      (by decide) (by decide) (by decide) (by decide) (by decide) (by decide)
      (by decide),
   C7_numeric_coercion.2.1 stW dbT dataTbad "MEDIUM" (by decide) (by decide)
      (by decide) (by decide) (Or.inr (Or.inl (by decide)))⟩

/-- Claim C8: with all required create_test fields present, a string
difficulty is accepted exactly when its lower-cased form is easy, medium or
hard; an invalid difficulty returns the 400 validation body with the store
untouched (before the creator check and the insert), and a valid one
proceeds to a 201 creation when the creator exists and the numeric fields
coerce. -/
theorem C8_difficulty_case_insensitive (st : AppState) (db : DB)
    (data : Payload) (s : String)
    (hval : validate_required_fields data testRequired = none)
    (hdiff : getJ data "difficulty" = JValue.str s) :
    (difficultyValid s = true ↔ lowerStr s ∈ ["easy", "medium", "hard"]) ∧
    (difficultyValid s = false →
      create_test st true db data = .ok
        { status := 400, success := false,
          message := some "Difficulty must be one of: easy, medium, hard" }
        db st) ∧
    (difficultyValid s = true →
      teacherExists db (getJ data "createdBy") = true →
      ∀ i m q du : Int, coerceInt (getJ data "id") = some i →
        coerceInt (getJ data "marks") = some m →
        coerceInt (getJ data "totalQuestions") = some q →
        coerceInt (getJ data "duration") = some du →
        (create_test st true db data).status? = some 201) := by
  refine ⟨?_, ?_, ?_⟩
  · simp [difficultyValid, VALID_DIFFICULTIES]
  · intro h
    have hmsg : "Difficulty must be one of: " ++
        String.intercalate ", " VALID_DIFFICULTIES =
        "Difficulty must be one of: easy, medium, hard" := by decide
    simp [create_test, hval, hdiff, pyStr, h, hmsg]
  · intro hd ht i m q du h1 h2 h3 h4
    simp [create_test, hval, hdiff, pyStr, hd, ht, h1, h2, h3, h4,
      HResult.status?]

/-- Claim C8 witness: difficulty "MEDIUM" creates the test; difficulty
"impossible" is rejected with the 400 validation body. -/
theorem C8_witness :
    (create_test stW true dbT dataT).status? = some 201 ∧
    create_test stW true dbT dataImp = .ok
      { status := 400, success := false,
        message := some "Difficulty must be one of: easy, medium, hard" }
      dbT stW :=
  ⟨(C8_difficulty_case_insensitive stW dbT dataT "MEDIUM" (by decide)
      (by decide)).2.2 (by decide) (by decide) 5 50 10 60 (by decide)
      (by decide) (by decide) (by decide),
   (C8_difficulty_case_insensitive stW dbT dataImp "impossible" (by decide)
      (by decide)).2.1 (by decide)⟩

/-- The body produced by a failed required-field validation: status 400,
success false, no error detail, and the message naming the missing
fields. -/
theorem validate_some_shape (data : Payload) (fields : List String)
    (r : Response) (h : validate_required_fields data fields = some r) :
    r.status = 400 ∧ r.success = false ∧ r.error = none ∧
    r.message = some ("Missing required fields: " ++
      String.intercalate ", " (missing_fields data fields)) := by
  unfold validate_required_fields at h
  split at h
  · cases h
  · cases h
    exact ⟨rfl, rfl, rfl, rfl⟩

/-- Body shape of every signup response: error detail exactly on 500, and
a message always present. -/
theorem signup_shape (st : AppState) (c : Bool) (db : DB) (d : Payload)
    (r : Response) (db2 : DB) (st2 : AppState)
    (h : signup st c db d = .ok r db2 st2) :
    (r.error ≠ none ↔ r.status = 500) ∧ r.message ≠ none := by
  unfold signup at h
  split at h
  next err heq =>
    cases h
    have hs := validate_some_shape d signupRequired _ heq
    rw [hs.1, hs.2.2.1, hs.2.2.2]
    simp
  next =>
    split at h
    · exact HResult.noConfusion h
    · split at h
      · cases h; simp
      · split at h
        · cases h; simp
        · split at h
          · cases h; simp
          · cases h; simp

/-- Body shape of every verify response. -/
theorem verify_shape (st : AppState) (c : Bool) (db : DB) (d : Payload)
    (r : Response) (db2 : DB) (st2 : AppState)
    (h : verify st c db d = .ok r db2 st2) :
    (r.error ≠ none ↔ r.status = 500) ∧ r.message ≠ none := by
  unfold verify at h
  split at h
  · cases h; simp
  · split at h
    · exact HResult.noConfusion h
    · split at h
      · cases h; simp
      · cases h; simp

/-- Body shape of every login response. -/
theorem login_shape (st : AppState) (c : Bool) (db : DB) (d : Payload)
    (r : Response) (db2 : DB) (st2 : AppState)
    (h : login st c db d = .ok r db2 st2) :
    (r.error ≠ none ↔ r.status = 500) ∧ r.message ≠ none := by
  unfold login at h
  split at h
  next err heq =>
    cases h
    have hs := validate_some_shape d ["email", "password"] _ heq
    rw [hs.1, hs.2.2.1, hs.2.2.2]
    simp
  next =>
    split at h
    · cases h; simp
    · split at h
      · cases h; simp
      · split at h
        · cases h; simp
        · split at h
          · cases h; simp
          · split at h
            · cases h; simp
            · cases h; simp

/-- Body shape of every create_test response. -/
theorem create_test_shape (st : AppState) (c : Bool) (db : DB) (d : Payload)
    (r : Response) (db2 : DB) (st2 : AppState)
    (h : create_test st c db d = .ok r db2 st2) :
    (r.error ≠ none ↔ r.status = 500) ∧ r.message ≠ none := by
  unfold create_test at h
  split at h
  next err heq =>
    cases h
    have hs := validate_some_shape d testRequired _ heq
    rw [hs.1, hs.2.2.1, hs.2.2.2]
    simp
  next =>
    split at h
    · split at h
      · exact HResult.noConfusion h
      · cases h; simp
    · split at h
      · cases h; simp
      · split at h
        · exact HResult.noConfusion h
        · split at h
          · cases h; simp
          · split at h
            · cases h; simp
            · cases h; simp

/-- Body shape of every get_results response: error detail exactly on 500,
and the only response missing a message is the 200 success. -/
theorem results_shape (st : AppState) (c : Bool) (db : DB)
    (e : Option String) (r : Response) (db2 : DB) (st2 : AppState)
    (h : get_results st c db e = .ok r db2 st2) :
    (r.error ≠ none ↔ r.status = 500) ∧
    (r.message = none → r.status = 200) := by
  unfold get_results at h
  split at h
  · cases h; simp
  · split at h
    · cases h; simp
    · split at h
      · cases h; simp
      · cases h; simp

/-- Body shape of every create_question response. -/
theorem question_shape (st : AppState) (c : Bool) (db : DB) (d : Payload)
    (r : Response) (db2 : DB) (st2 : AppState)
    (h : create_question st c db d = .ok r db2 st2) :
    (r.error ≠ none ↔ r.status = 500) ∧ r.message ≠ none := by
  unfold create_question at h
  split at h
  next err heq =>
    cases h
    have hs := validate_some_shape d questionRequired _ heq
    rw [hs.1, hs.2.2.1, hs.2.2.2]
    simp
  next =>
    split at h
    · exact HResult.noConfusion h
    · split at h
      · cases h; simp
      · cases h; simp

/-- Claim C5 counterexample: the successful get_results response has
status 200 and carries no `message` field, so the body does not always
contain both `success` and `message`. -/
theorem C5_counterexample :
    (get_results stW true dbW (some "t@x.com")).status? = some 200 ∧
    (get_results stW true dbW (some "t@x.com")).message? = none := by decide

/-- Claim C5 as amended: every handler response carries `success`; the
`error` detail string appears exactly on status-500 bodies; and `message`
appears on every response except the 200 success body of get_results
(which carries `success` and `results` only). -/
theorem C5_body_shape (st : AppState) (connOk : Bool) (db : DB)
    (req : Request) (r : Response) (db2 : DB) (st2 : AppState)
    (h : dispatch st connOk db req = .ok r db2 st2) :
    (r.error ≠ none ↔ r.status = 500) ∧
    (r.message = none → r.status = 200 ∧ ∃ e, req = .resultsReq e) := by
  cases req with
  | signupReq d =>
    have hs := signup_shape st connOk db d r db2 st2 h
    exact ⟨hs.1, fun hm => absurd hm hs.2⟩
  | verifyReq d =>
    have hs := verify_shape st connOk db d r db2 st2 h
    exact ⟨hs.1, fun hm => absurd hm hs.2⟩
  | loginReq d =>
    have hs := login_shape st connOk db d r db2 st2 h
    exact ⟨hs.1, fun hm => absurd hm hs.2⟩
  | createTestReq d =>
    have hs := create_test_shape st connOk db d r db2 st2 h
    exact ⟨hs.1, fun hm => absurd hm hs.2⟩
  | resultsReq e =>
    have hs := results_shape st connOk db e r db2 st2 h
    exact ⟨hs.1, fun hm => ⟨hs.2 hm, e, rfl⟩⟩
  | questionsReq d =>
    have hs := question_shape st connOk db d r db2 st2 h
    exact ⟨hs.1, fun hm => absurd hm hs.2⟩

/-- Claim C5 witness: the amended shape at the concrete 200 get_results
response of the counterexample input. -/
theorem C5_witness :
    ((({ status := 200, success := true,
         results := some [] } : Response).error ≠ none ↔
        ({ status := 200, success := true,
           results := some [] } : Response).status = 500) ∧
      (({ status := 200, success := true,
          results := some [] } : Response).message = none →
        ({ status := 200, success := true,
           results := some [] } : Response).status = 200 ∧
        ∃ e, Request.resultsReq (some "t@x.com") = Request.resultsReq e)) :=
  C5_body_shape stW true dbW (.resultsReq (some "t@x.com"))
    { status := 200, success := true, results := some [] } dbW stW (by decide)


/-- Claim C6 counterexample: when the store is unreachable,
`get_db_connection` returns `None` and a valid login then reports the
ordinary 500 internal error (the same status and generic message as any
application-level failure), not a distinct ServiceUnavailable condition. -/
theorem C6_counterexample :
    get_db_connection false = none ∧
    (login stW ((get_db_connection false).isSome) dbW dLogin).status? =
      some 500 ∧
    (login stW ((get_db_connection false).isSome) dbW dLogin).message? =
      some "An error occurred during login" := by decide

/-- Claim C6 as amended: when connection acquisition fails,
`get_db_connection` returns `None`; any response a handler still produces
is a failure that is either a pre-connection 400 validation body or the
ordinary 500 internal-error body with the exception detail — never a 503
ServiceUnavailable — and the store is never mutated (the remaining paths
raise an unhandled exception when the `except` block rolls back on the
`None` connection, producing no structured response at all). -/
theorem C6_conn_failure_not_503 (st : AppState) (db : DB) (req : Request)
    (r : Response) (db2 : DB) (st2 : AppState)
    (h : dispatch st ((get_db_connection false).isSome) db req =
      .ok r db2 st2) :
    r.success = false ∧ r.status ≠ 503 ∧
    (r.status = 400 ∨ (r.status = 500 ∧ r.error ≠ none)) ∧ db2 = db := by
  have hc : (get_db_connection false).isSome = false := rfl
  rw [hc] at h
  have hff : (false = false) := rfl
  cases req with
  | signupReq d =>
    simp only [dispatch] at h
    unfold signup at h
    split at h
    next err heq =>
      cases h
      have hs := validate_some_shape d signupRequired _ heq
      exact ⟨hs.2.1, by rw [hs.1]; decide, Or.inl hs.1, rfl⟩
    next =>
      rw [if_pos hff] at h
      exact HResult.noConfusion h
  | verifyReq d =>
    simp only [dispatch] at h
    unfold verify at h
    split at h
    · cases h
      exact ⟨rfl, by decide, Or.inl rfl, rfl⟩
    · exact HResult.noConfusion h
  | loginReq d =>
    simp only [dispatch] at h
    unfold login at h
    split at h
    next err heq =>
      cases h
      have hs := validate_some_shape d ["email", "password"] _ heq
      exact ⟨hs.2.1, by rw [hs.1]; decide, Or.inl hs.1, rfl⟩
    next =>
      rw [if_pos hff] at h
      cases h
      exact ⟨rfl, by decide, Or.inr ⟨rfl, by simp⟩, rfl⟩
  | createTestReq d =>
    simp only [dispatch] at h
    unfold create_test at h
    split at h
    next err heq =>
      cases h
      have hs := validate_some_shape d testRequired _ heq
      exact ⟨hs.2.1, by rw [hs.1]; decide, Or.inl hs.1, rfl⟩
    next =>
      split at h
      · rw [if_pos hff] at h
        exact HResult.noConfusion h
      · split at h
        · cases h
          exact ⟨rfl, by decide, Or.inl rfl, rfl⟩
        · exact HResult.noConfusion h
  | resultsReq e =>
    simp only [dispatch] at h
    unfold get_results at h
    split at h
    · cases h
      exact ⟨rfl, by decide, Or.inl rfl, rfl⟩
    · split at h
      · cases h
        exact ⟨rfl, by decide, Or.inl rfl, rfl⟩
      · cases h
        exact ⟨rfl, by decide, Or.inr ⟨rfl, by simp⟩, rfl⟩
  | questionsReq d =>
    simp only [dispatch] at h
    unfold create_question at h
    split at h
    next err heq =>
      cases h
      have hs := validate_some_shape d questionRequired _ heq
      exact ⟨hs.2.1, by rw [hs.1]; decide, Or.inl hs.1, rfl⟩
    next =>
      rw [if_pos hff] at h
      exact HResult.noConfusion h

/-- Claim C6 witness: the amended statement at the concrete login of the
counterexample. -/
theorem C6_witness :
    r500login.success = false ∧ r500login.status ≠ 503 ∧
    (r500login.status = 400 ∨
      (r500login.status = 500 ∧ r500login.error ≠ none)) ∧ dbW = dbW :=
  C6_conn_failure_not_503 stW dbW (.loginReq dLogin) r500login dbW stW
    (by decide)
